import Mathlib

/-!
# Verification of the email-triage heuristic core

Shallow embedding of the heuristic classification engine and its processing
pipeline from `gmail_to_agent.py` and `agent_logic.py`.

Python dynamic values are modelled by `PyVal`; a Python `dict` is an
association list with unique keys and insertion order.  Python exceptions are
modelled by `Except String`: an `.error` value is a raised exception
propagating out of the modelled function.  External collaborators (the Gemini
call `model.generate_content(...).text` and the standard-library
`json.loads`) are parameters of the embedding, so theorems quantify over
every collaborator behaviour.
-/

set_option autoImplicit false

namespace OceanAI

/-- Python values, restricted to the shapes the triage core manipulates. -/
inductive PyVal where
  | pynone : PyVal
  | pybool : Bool → PyVal
  | pyint : Int → PyVal
  | pystr : String → PyVal
  | pylist : List PyVal → PyVal
  | pydict : List (String × PyVal) → PyVal

open PyVal

/-- A Python dict, as an insertion-ordered association list. -/
abbrev PyDict := List (String × PyVal)

/-- `d.get(k)` / `d[k]` lookup: first entry with the key (keys are unique). -/
def dictGet (d : PyDict) (k : String) : Option PyVal :=
  match d with
  | [] => Option.none
  | (k', v) :: rest => if k' = k then some v else dictGet rest k

/-- `{**d, k: v}`: replace the value at `k` keeping its position, else append. -/
def dictSet (d : PyDict) (k : String) (v : PyVal) : PyDict :=
  match d with
  | [] => [(k, v)]
  | (k', v') :: rest => if k' = k then (k, v) :: rest else (k', v') :: dictSet rest k v

/-- Python truthiness (`bool(v)`). -/
def pyTruthy : PyVal → Bool
  | pynone => false
  | pybool b => b
  | pyint n => n ≠ 0
  | pystr s => s ≠ ""
  | pylist l => ¬ l.isEmpty
  | pydict d => ¬ d.isEmpty

/-- `v or ""`: the value itself when truthy, otherwise the empty string. -/
def pyOrEmpty (v : PyVal) : PyVal :=
  if pyTruthy v then v else pystr ""

mutual

/-- `repr`-like rendering.  Only scalar cases are ever exercised by the triage
core on well-formed records; container rendering is a best-effort model of
Python `repr` (string escaping omitted). -/
def pyRepr : PyVal → String
  | pynone => "None"
  | pybool true => "True"
  | pybool false => "False"
  | pyint n => toString n
  | pystr s => "\x27" ++ s ++ "\x27"
  | pylist l => "[" ++ pyReprItems l ++ "]"
  | pydict d => "\x7b" ++ pyReprEntries d ++ "\x7d"

/-- Comma-separated rendering of list elements. -/
def pyReprItems : List PyVal → String
  | [] => ""
  | [v] => pyRepr v
  | v :: rest => pyRepr v ++ ", " ++ pyReprItems rest

/-- Comma-separated rendering of dict entries. -/
def pyReprEntries : List (String × PyVal) → String
  | [] => ""
  | [(k, v)] => "\x27" ++ k ++ "\x27: " ++ pyRepr v
  | (k, v) :: rest => "\x27" ++ k ++ "\x27: " ++ pyRepr v ++ ", " ++ pyReprEntries rest

end

/-- Python `str(v)`. -/
def pyToStr : PyVal → String
  | pystr s => s
  | v => pyRepr v

/-- Does the character list `n` occur as a prefix of `h`? -/
def startsWithChars : List Char → List Char → Bool
  | [], _ => true
  | _ :: _, [] => false
  | a :: as, b :: bs => a = b && startsWithChars as bs

/-- Does the character list `n` occur contiguously inside `h`? -/
def occursInChars : List Char → List Char → Bool
  | n, [] => n.isEmpty
  | n, c :: rest => startsWithChars n (c :: rest) || occursInChars n rest

/-- Python `needle in hay` for strings: contiguous substring containment. -/
def pyIn (needle hay : String) : Bool :=
  occursInChars needle.toList hay.toList

/-- Characters Python's `str.strip()` removes (ASCII whitespace). -/
def isPySpace (c : Char) : Bool :=
  c = ' ' || c = '\t' || c = '\n' || c = '\r' || c = '\x0b' || c = '\x0c'

/-- Python `str.strip()`. -/
def pyStrip (s : String) : String :=
  String.mk (((s.toList.dropWhile isPySpace).reverse.dropWhile isPySpace).reverse)

/-- The line-boundary characters of Python `str.splitlines()`. -/
def isPyLineBreak (c : Char) : Bool :=
  c = '\n' || c = '\r' || c = '\x0b' || c = '\x0c' ||
  c = '\x1c' || c = '\x1d' || c = '\x1e' || c = '\x85' || c = '\u2028' || c = '\u2029'

/-- Worker for `pySplitlines`: `acc` holds the current line, reversed. -/
def splitlinesAux : List Char → List Char → List String
  | [], [] => []
  | [], acc => [String.mk acc.reverse]
  | '\r' :: '\n' :: rest, acc => String.mk acc.reverse :: splitlinesAux rest []
  | c :: rest, acc =>
      if isPyLineBreak c then String.mk acc.reverse :: splitlinesAux rest []
      else splitlinesAux rest (c :: acc)

/-- Python `str.splitlines()`: `""` gives no lines, a trailing break adds none. -/
def pySplitlines (s : String) : List String :=
  splitlinesAux s.toList []

/-- Python `str.lower()`, list-based.  `Char.toLower` lowers ASCII letters;
Python is Unicode-aware but agrees on the ASCII keywords the heuristics use. -/
def pyToLower (s : String) : String :=
  String.mk (s.toList.map Char.toLower)

/-- `v.lower()`: defined on strings, `AttributeError` otherwise. -/
def pyLower (v : PyVal) : Except String String :=
  match v with
  | pystr s => Except.ok (pyToLower s)
  | _ => Except.error "AttributeError: lower"

/-! ## Heuristic classifier and extractor (`gmail_to_agent.py`, `_simple_simulate_processing`)  -/

/-- Rule-1 keywords (`gmail_to_agent.py` line 39). -/
def newsletterKeywords : List String := ["unsubscribe", "newsletter", "subscribe", "weekly"]

/-- Rule-2 keywords (line 42). -/
def spamKeywords : List String := ["free", "win", "congratulations", "offer"]

/-- Rule-3 keywords, matched against the body text only (line 45). -/
def todoKeywords : List String :=
  ["please", "could you", "can you", "please review", "please confirm", "action", "deadline"]

/-- Per-line extraction keywords (line 54). -/
def actionKeywords : List String :=
  ["please", "could you", "can you", "please review", "please confirm", "action:", "todo"]

/-- Subject-fallback keywords (line 58). -/
def subjectKeywords : List String := ["task", "request", "todo", "please"]

/-- The `if/elif` category cascade of lines 39-50.  `body_text` and `subj` are
the already lower-cased haystacks bound on lines 31-37. -/
def classifyKeywordRules (body_text subj : String) : String × String :=
  if newsletterKeywords.any (fun w => pyIn w body_text || pyIn w subj) then
    ("Newsletter", "Contains newsletter/unsubscribe keywords")
  else if spamKeywords.any (fun w => pyIn w body_text || pyIn w subj) then
    ("Spam", "Contains spammy keywords")
  else if todoKeywords.any (fun w => pyIn w body_text) then
    ("To-Do", "Contains direct request or action language")
  else
    ("Important", "Default fallback")

/-- The per-line `for` loop of lines 53-56: `actions` is the accumulator. -/
def scanBodyLines (lines : List String) (actions : List PyVal) : List PyVal :=
  match lines with
  | [] => actions
  | line :: rest =>
      let low := pyToLower (pyStrip line)
      if actionKeywords.any (fun kw => pyIn kw low) then
        scanBodyLines rest (actions ++ [pydict [("task", pystr (pyStrip line)), ("deadline", pynone)]])
      else
        scanBodyLines rest actions

/-- Lines 53-59: line scan plus the subject-fallback append.  `subj` is the
lower-cased subject bound on lines 33/36. -/
def extractActions (subj : String) (lines : List String) : List PyVal :=
  let actions := scanBodyLines lines []
  if actions.isEmpty && subjectKeywords.any (fun kw => pyIn kw subj) then
    actions ++ [pydict [("task", pystr subj), ("deadline", pynone)]]
  else
    actions

/-- Line 53's iterated lines: `.get("text", "")` yields `None` when the `text`
entry is explicitly `None`, and `None.splitlines()` raises. -/
def simulateBodyLines (email : PyDict) : Except String (List String) :=
  match (dictGet email "body").getD pynone with
  | pydict d =>
      match dictGet d "text" with
      | Option.none => Except.ok (pySplitlines "")
      | some (pystr s) => Except.ok (pySplitlines s)
      | some _ => Except.error "AttributeError: NoneType has no attribute splitlines"
  | _ => Except.ok (pySplitlines (pyToStr ((dictGet email "body").getD (pystr ""))))

/-- Lines 31-37, `body_text`: lower-cased text extracted from the body. -/
def simulateBodyText (email : PyDict) : Except String String :=
  match (dictGet email "body").getD pynone with
  | pydict d => pyLower (pyOrEmpty ((dictGet d "text").getD pynone))
  | v => Except.ok (pyToLower (pyToStr (pyOrEmpty v)))

/-- Lines 33/36, `subj`: the lower-cased subject. -/
def simulateSubj (email : PyDict) : Except String String :=
  pyLower (pyOrEmpty ((dictGet email "subject").getD pynone))

/-- `_simple_simulate_processing` (lines 30-66).  An `.error` result models an
uncaught Python exception escaping the function. -/
def simpleSimulateProcessing (email : PyDict) : Except String PyDict :=
  -- lines 31-37: body_text and subj, both lower-cased
  match simulateBodyText email with
  | Except.error e => Except.error e
  | Except.ok body_text =>
    match simulateSubj email with
    | Except.error e => Except.error e
    | Except.ok subj =>
      -- lines 39-50: category cascade
      let cr := classifyKeywordRules body_text subj
      -- lines 53-59: action extraction
      match simulateBodyLines email with
      | Except.error e => Except.error e
      | Except.ok lines =>
          let actions := extractActions subj lines
          -- lines 61-66: merge the three derived fields into the record
          Except.ok (dictSet (dictSet (dictSet email
              "category" (pystr cr.1))
              "category_reason" (pystr cr.2))
              "action_items" (pylist actions))

/-! ## LLM pipeline (`agent_logic.py`, `process_email`)

`generate` models `genai.GenerativeModel(...).generate_content(p).text` (may
raise); `parse` models `json.loads` (returns a Python value or raises). -/

/-- `call_gemini` (lines 43-47): concatenates the prompts and delegates. -/
def call_gemini (generate : String → Except String String)
    (system_prompt : PyVal) (user_prompt : String) : Except String String :=
  match system_prompt with
  | pystr s => generate (s ++ "\n\n" ++ user_prompt)
  | _ => Except.error "TypeError: can only concatenate str"

/-- Lines 55-59 of `process_email`: `content`, the normalized body. -/
def normalizeContent (email : PyDict) : PyVal :=
  match (dictGet email "body").getD (pydict []) with
  | pydict d => pyOrEmpty ((dictGet d "text").getD pynone)
  | v => pystr (pyToStr v)

/-- The categorization user prompt (line 62). -/
def catUserPrompt (email : PyDict) : String :=
  "Email:\n" ++ pyToStr (normalizeContent email) ++ "\n\nReturn category and reason in JSON."

/-- The action-item user prompt (line 70). -/
def actUserPrompt (email : PyDict) : String :=
  "Email:\n" ++ pyToStr (normalizeContent email) ++
    "\n\nReturn JSON array: [\x7b\x27task\x27:..., \x27deadline\x27:...\x7d]"

/-- Body of the categorization `try` block (lines 63-65): call, then parse. -/
def catOutcome (generate : String → Except String String)
    (parse : String → Except String PyVal) (prompts email : PyDict) :
    Except String PyVal :=
  match call_gemini generate ((dictGet prompts "categorization_prompt").getD (pystr ""))
      (catUserPrompt email) with
  | Except.error e => Except.error e
  | Except.ok raw => parse raw

/-- Body of the action-item `try` block (lines 71-73): call, then parse. -/
def actOutcome (generate : String → Except String String)
    (parse : String → Except String PyVal) (prompts email : PyDict) :
    Except String PyVal :=
  match call_gemini generate ((dictGet prompts "action_item_prompt").getD (pystr ""))
      (actUserPrompt email) with
  | Except.error e => Except.error e
  | Except.ok raw => parse raw

/-- `process_email` (lines 51-82).  Each `try/except` substitutes its fallback;
the final `return` calls `cat_json.get(...)`, which raises `AttributeError`
when `cat_json` is not a dict — that exception is outside both `try` blocks. -/
def process_email (generate : String → Except String String)
    (parse : String → Except String PyVal) (prompts email : PyDict) :
    Except String PyDict :=
  let cat_json := match catOutcome generate parse prompts email with
    | Except.ok v => v
    | Except.error _ => pydict [("category", pystr "Unknown"), ("reason", pystr "Gemini parsing error")]
  let actions := match actOutcome generate parse prompts email with
    | Except.ok v => v
    | Except.error _ => pylist []
  match cat_json with
  | pydict o =>
      Except.ok (dictSet (dictSet (dictSet email
          "category" ((dictGet o "category").getD (pystr "Unknown")))
          "category_reason" ((dictGet o "reason").getD (pystr "")))
          "action_items" actions)
  | _ => Except.error "AttributeError: object has no attribute get"

/-! ## Batch orchestration (`gmail_to_agent.py`, `fetch_and_process_gmail`) -/

/-- The `email_dict` literal of lines 100-110, built from a fetched message. -/
def buildEmailDict (msg : PyDict) : PyDict :=
  let bodyv := (dictGet msg "body").getD pynone
  let text := match bodyv with
    | pydict d => (dictGet d "text").getD pynone
    | v => pyOrEmpty v
  let html := match bodyv with
    | pydict d => (dictGet d "html").getD pynone
    | _ => pynone
  [("id", (dictGet msg "id").getD pynone),
   ("sender", (dictGet msg "sender").getD pynone),
   ("subject", (dictGet msg "subject").getD pynone),
   ("body", pydict [("text", text), ("html", html)]),
   ("timestamp", (dictGet msg "timestamp").getD pynone),
   ("raw_gmail", (dictGet msg "raw_gmail").getD (pydict []))]

/-- Lines 114-125: per-message mode dispatch.  Only the `process_email` call is
wrapped in `try/except`; the simulator and skip branches are unguarded. -/
def processOneMessage (skip_processing simulate_processing : Bool)
    (generate : String → Except String String) (parse : String → Except String PyVal)
    (prompts email : PyDict) : Except String PyDict :=
  if skip_processing then
    if simulate_processing then
      simpleSimulateProcessing email
    else
      Except.ok email
  else
    match process_email generate parse prompts email with
    | Except.ok updated => Except.ok updated
    | Except.error e =>
        Except.ok (dictSet (dictSet (dictSet email
            "category" (pystr "Unknown"))
            "category_reason" (pystr ("Processing error: " ++ e)))
            "action_items" (pylist []))

/-- The per-id `for` loop of lines 95-130.  `fetch` models
`get_message(service, msg_id)`, which returns `\x7b\x7d` (falsy) on a fetch
error, and a falsy result is skipped (`if not msg: continue`).  An `.error`
models an uncaught exception aborting the whole batch. -/
def fetchAndProcessLoop (fetch : String → PyDict)
    (skip_processing simulate_processing : Bool)
    (generate : String → Except String String) (parse : String → Except String PyVal)
    (prompts : PyDict) : List String → Except String (List PyDict)
  | [] => Except.ok []
  | msg_id :: rest =>
      let msg := fetch msg_id
      if pyTruthy (pydict msg) then
        match processOneMessage skip_processing simulate_processing generate parse prompts
            (buildEmailDict msg) with
        | Except.ok updated =>
            match fetchAndProcessLoop fetch skip_processing simulate_processing
                generate parse prompts rest with
            | Except.ok tail => Except.ok (updated :: tail)
            | Except.error e => Except.error e
        | Except.error e => Except.error e
      else
        fetchAndProcessLoop fetch skip_processing simulate_processing generate parse prompts rest

/-! ## Spec-side vocabulary

Definitions phrased the way the specification states the properties, used to
compare the embedded code against the spec's wording. -/

/-- The (lower-case) keyword `w` occurs case-insensitively in `s`. -/
def occursCI (w s : String) : Bool := pyIn w (pyToLower s)

/-- Some keyword of `ws` occurs case-insensitively in the body text or in the
subject. -/
def anyKeywordIn (ws : List String) (subject bodyText : String) : Bool :=
  ws.any fun w => occursCI w bodyText || occursCI w subject

/-- Some keyword of `ws` occurs case-insensitively in the body text. -/
def anyKeywordInBody (ws : List String) (bodyText : String) : Bool :=
  ws.any fun w => occursCI w bodyText

/-- A line's lower-cased, whitespace-trimmed form contains an action keyword. -/
def lineMatches (line : String) : Bool :=
  actionKeywords.any fun kw => pyIn kw (pyToLower (pyStrip line))

/-- The ActionItem emitted for a matching line: the original-case trimmed line
as `task`, a null `deadline`. -/
def mkActionItem (line : String) : PyVal :=
  pydict [("task", pystr (pyStrip line)), ("deadline", pynone)]

/-- The action-item value the LLM path stores: the parsed value on success,
the empty list on failure. -/
def actionStepResult : Except String PyVal → PyVal
  | Except.ok v => v
  | Except.error _ => pylist []

/-! ## Concrete collaborator behaviours and records used in witnesses -/

/-- A completion whose every call raises (e.g. quota exhaustion). -/
def genFail : String → Except String String := fun _ => Except.error "quota exceeded"

/-- A `json.loads` model that always fails to parse. -/
def parseFail : String → Except String PyVal := fun _ => Except.error "no JSON"

/-- A completion returning the text "[]" (valid JSON, not an object). -/
def genArr : String → Except String String := fun _ => Except.ok "[]"

/-- A `json.loads` model parsing "[]" to the empty Python list. -/
def parseArr : String → Except String PyVal := fun s =>
  if s = "[]" then Except.ok (pylist []) else Except.error "invalid JSON"

/-- A completion returning the text "OBJ" for every request. -/
def genObj : String → Except String String := fun _ => Except.ok "OBJ"

/-- A `json.loads` model parsing "OBJ" to the empty Python dict. -/
def parseObj : String → Except String PyVal := fun s =>
  if s = "OBJ" then Except.ok (pydict []) else Except.error "invalid JSON"

/-- A plain greeting record with an extra caller field `id`. -/
def exEmail : PyDict := [("id", pystr "42"), ("subject", pystr "hi"), ("body", pystr "hello")]

/-- The simulator's output on `exEmail`. -/
def exSimOut : PyDict :=
  [("id", pystr "42"), ("subject", pystr "hi"), ("body", pystr "hello"),
   ("category", pystr "Important"), ("category_reason", pystr "Default fallback"),
   ("action_items", pylist [])]

/-- `process_email`'s output on `exEmail` with the all-failing collaborators. -/
def exLLMOut : PyDict :=
  [("id", pystr "42"), ("subject", pystr "hi"), ("body", pystr "hello"),
   ("category", pystr "Unknown"), ("category_reason", pystr "Gemini parsing error"),
   ("action_items", pylist [])]

/-- A fetch behaviour: message m1 has a null body text, m2 a string body. -/
def fetchC9 : String → PyDict := fun msg_id =>
  if msg_id = "m1" then [("id", pystr "m1"), ("body", pydict [("text", pynone)])]
  else [("id", pystr "m2"), ("body", pystr "hello")]

/-! ## Helper lemmas -/

theorem dictGet_dictSet_self (d : PyDict) (k : String) (v : PyVal) :
    dictGet (dictSet d k v) k = some v := by
  induction d with
  | nil => simp [dictSet, dictGet]
  | cons p rest ih =>
      obtain ⟨k', v'⟩ := p
      by_cases h : k' = k <;> simp [dictSet, dictGet, h, ih]

theorem dictGet_dictSet_of_ne (d : PyDict) (k : String) (v : PyVal) (q : String)
    (h : q ≠ k) : dictGet (dictSet d k v) q = dictGet d q := by
  have hk : ¬ (k = q) := fun hkq => h hkq.symm
  induction d with
  | nil => simp [dictSet, dictGet, hk]
  | cons p rest ih =>
      obtain ⟨k', v'⟩ := p
      by_cases hkk : k' = k
      · subst hkk
        simp [dictSet, dictGet, hk]
      · simp [dictSet, dictGet, hkk, ih]

theorem scanBodyLines_acc (lines : List String) (actions : List PyVal) :
    scanBodyLines lines actions =
      actions ++ (lines.filter lineMatches).map mkActionItem := by
  induction lines generalizing actions with
  | nil => simp [scanBodyLines]
  | cons line rest ih =>
      by_cases h : lineMatches line = true
      · simp only [scanBodyLines, lineMatches] at h ⊢
        simp [h, ih, mkActionItem, List.filter_cons, lineMatches]
      · simp only [scanBodyLines, lineMatches, Bool.not_eq_true] at h ⊢
        simp [h, ih, List.filter_cons, lineMatches]

/-- A successful simulator run only rewrites the three derived fields. -/
theorem simulate_ok_shape (email out : PyDict)
    (h : simpleSimulateProcessing email = Except.ok out) :
    ∃ cv rv av, out = dictSet (dictSet (dictSet email
      "category" cv) "category_reason" rv) "action_items" av := by
  unfold simpleSimulateProcessing at h
  cases h1 : simulateBodyText email with
  | error e => simp [h1] at h
  | ok bt =>
    cases h2 : simulateSubj email with
    | error e => simp [h1, h2] at h
    | ok sj =>
      cases h3 : simulateBodyLines email with
      | error e => simp [h1, h2, h3] at h
      | ok lines =>
          simp only [h1, h2, h3] at h
          exact ⟨_, _, _, (Except.ok.inj h).symm⟩

/-- A successful LLM-mode run only rewrites the three derived fields. -/
theorem process_email_ok_shape (generate : String → Except String String)
    (parse : String → Except String PyVal) (prompts email out : PyDict)
    (h : process_email generate parse prompts email = Except.ok out) :
    ∃ cv rv av, out = dictSet (dictSet (dictSet email
      "category" cv) "category_reason" rv) "action_items" av := by
  unfold process_email at h
  cases hc : catOutcome generate parse prompts email with
  | error e =>
      simp only [hc] at h
      exact ⟨_, _, _, (Except.ok.inj h).symm⟩
  | ok v =>
      simp only [hc] at h
      cases v with
      | pydict o => exact ⟨_, _, _, (Except.ok.inj h).symm⟩
      | pynone => simp at h
      | pybool b => simp at h
      | pyint n => simp at h
      | pystr s => simp at h
      | pylist l => simp at h

/-- The result formula for `process_email`: when the categorization step's
outcome is a dict (or its failure fallback is used), the returned record
merges the three derived fields, the action-item slot depending only on the
action step's outcome. -/
theorem process_email_formula (generate : String → Except String String)
    (parse : String → Except String PyVal) (prompts email : PyDict) :
    (∀ o, catOutcome generate parse prompts email = Except.ok (pydict o) →
      process_email generate parse prompts email = Except.ok
        (dictSet (dictSet (dictSet email
          "category" ((dictGet o "category").getD (pystr "Unknown")))
          "category_reason" ((dictGet o "reason").getD (pystr "")))
          "action_items" (actionStepResult (actOutcome generate parse prompts email)))) ∧
    (∀ e, catOutcome generate parse prompts email = Except.error e →
      process_email generate parse prompts email = Except.ok
        (dictSet (dictSet (dictSet email
          "category" (pystr "Unknown"))
          "category_reason" (pystr "Gemini parsing error"))
          "action_items" (actionStepResult (actOutcome generate parse prompts email)))) := by
  constructor
  · intro o hc
    unfold process_email
    rw [hc]
    cases ha : actOutcome generate parse prompts email <;> simp [ha, actionStepResult]
  · intro e hc
    unfold process_email
    rw [hc]
    cases ha : actOutcome generate parse prompts email <;>
      simp [ha, actionStepResult, dictGet]

/-! ## Claim theorems -/

/-- C1: for every subject and bodyText the classifier evaluates its rules in
fixed priority order with first match winning: a newsletter keyword in body or
subject (case-insensitively) gives Newsletter with reason "Contains
newsletter/unsubscribe keywords"; otherwise a spam keyword in body or subject
gives Spam with reason "Contains spammy keywords"; otherwise a to-do keyword
in the body only gives To-Do with reason "Contains direct request or action
language"; otherwise Important with reason "Default fallback".  The four cases
are exhaustive, so exactly one category is returned. -/
theorem classifier_priority_rules (subject bodyText : String) :
    (anyKeywordIn newsletterKeywords subject bodyText = true →
      classifyKeywordRules (pyToLower bodyText) (pyToLower subject) =
        ("Newsletter", "Contains newsletter/unsubscribe keywords")) ∧
    (anyKeywordIn newsletterKeywords subject bodyText = false →
      anyKeywordIn spamKeywords subject bodyText = true →
      classifyKeywordRules (pyToLower bodyText) (pyToLower subject) =
        ("Spam", "Contains spammy keywords")) ∧
    (anyKeywordIn newsletterKeywords subject bodyText = false →
      anyKeywordIn spamKeywords subject bodyText = false →
      anyKeywordInBody todoKeywords bodyText = true →
      classifyKeywordRules (pyToLower bodyText) (pyToLower subject) =
        ("To-Do", "Contains direct request or action language")) ∧
    (anyKeywordIn newsletterKeywords subject bodyText = false →
      anyKeywordIn spamKeywords subject bodyText = false →
      anyKeywordInBody todoKeywords bodyText = false →
      classifyKeywordRules (pyToLower bodyText) (pyToLower subject) =
        ("Important", "Default fallback")) := by
  refine ⟨fun h1 => ?_, fun h1 h2 => ?_, fun h1 h2 h3 => ?_, fun h1 h2 h3 => ?_⟩ <;>
    simp only [anyKeywordIn, anyKeywordInBody, occursCI] at * <;>
    simp only [classifyKeywordRules, *] <;> simp

/-- C1 witness: the spec's priority-ordering example lands in rule 1. -/
theorem classifier_priority_rules_check :
    anyKeywordIn newsletterKeywords "Weekly offer" "congratulations, unsubscribe now" = true ∧
    classifyKeywordRules (pyToLower "congratulations, unsubscribe now") (pyToLower "Weekly offer") =
      ("Newsletter", "Contains newsletter/unsubscribe keywords") :=
  ⟨by decide,
   (classifier_priority_rules "Weekly offer" "congratulations, unsubscribe now").1 (by decide)⟩

/-- C2: the extractor splits the body text into lines and emits, in source
order and without deduplication, one ActionItem per line whose lower-cased
trimmed form contains an action keyword; the item's task is the original-case
trimmed line and its deadline is null. -/
theorem extractor_line_scan (bodyText : String) :
    scanBodyLines (pySplitlines bodyText) [] =
      ((pySplitlines bodyText).filter lineMatches).map mkActionItem := by
  simpa using scanBodyLines_acc (pySplitlines bodyText) []

/-- C3 counterexample: with subject "Task: review budget" and an unactionable
body, the synthetic item's task is the lower-cased subject
"task: review budget", not the original-case subject the claim states. -/
theorem subject_fallback_case_counterexample :
    simpleSimulateProcessing
        [("subject", pystr "Task: review budget"), ("body", pystr "no actionable content here")] =
      Except.ok
        [("subject", pystr "Task: review budget"),
         ("body", pystr "no actionable content here"),
         ("category", pystr "To-Do"),
         ("category_reason", pystr "Contains direct request or action language"),
         ("action_items",
          pylist [pydict [("task", pystr "task: review budget"), ("deadline", pynone)]])] ∧
    "task: review budget" ≠ "Task: review budget" :=
  ⟨rfl, by decide⟩

/-- C3 amended: when the per-line scan yields zero items and the lower-cased
subject contains a subject keyword, exactly one synthetic ActionItem is
appended whose task equals the LOWER-CASED subject (not the original-case
subject) and whose deadline is null; when the scan yields one or more items,
no synthetic item is appended. -/
theorem subject_fallback_lowercase (subject : String) (lines : List String) :
    (scanBodyLines lines [] = [] →
      subjectKeywords.any (fun kw => pyIn kw (pyToLower subject)) = true →
      extractActions (pyToLower subject) lines =
        [pydict [("task", pystr (pyToLower subject)), ("deadline", pynone)]]) ∧
    (scanBodyLines lines [] ≠ [] →
      extractActions (pyToLower subject) lines = scanBodyLines lines []) := by
  constructor
  · intro h1 h2
    simp [extractActions, h1, h2]
  · intro h1
    simp [extractActions, List.isEmpty_eq_true, h1]

/-- C3 witness: the amended fallback at the spec's subject-fallback example. -/
theorem subject_fallback_lowercase_check :
    extractActions (pyToLower "Task: review budget") (pySplitlines "no actionable content here") =
      [pydict [("task", pystr (pyToLower "Task: review budget")), ("deadline", pynone)]] :=
  (subject_fallback_lowercase "Task: review budget"
    (pySplitlines "no actionable content here")).1 rfl rfl

/-- C7: code bug — the claim says extraction is total for every MessageBody
including a structured body whose `text` is null, but on `body = \x7btext:
null\x7d` the extraction loop calls `None.splitlines()` and the simulator
raises instead of returning. -/
theorem extractor_null_text_crash :
    simpleSimulateProcessing [("subject", pystr "Hello"), ("body", pydict [("text", pynone)])] =
      Except.error "AttributeError: NoneType has no attribute splitlines" := rfl

/-- C8: Skip mode (skip_processing and not simulate_processing) returns the
record unchanged: no category, category_reason or action_items field is added
and no existing field is mutated. -/
theorem skip_mode_identity (generate : String → Except String String)
    (parse : String → Except String PyVal) (prompts email : PyDict) :
    processOneMessage true false generate parse prompts email = Except.ok email := rfl

/-- C4 counterexample: a collaborator whose categorization response parses
successfully to a JSON array makes `process_email` raise `AttributeError`
(`cat_json.get` on a list, evaluated outside both try blocks), so "never
propagates an exception to its caller, for every collaborator behaviour" is
false as stated. -/
theorem llm_nondict_response_raises :
    parseArr "[]" = Except.ok (pylist []) ∧
    process_email genArr parseArr [] [("body", pystr "hi")] =
      Except.error "AttributeError: object has no attribute get" :=
  ⟨rfl, rfl⟩

/-- C4 amended: provided the categorization response, when it parses
successfully, parses to a JSON object, `process_email` propagates no
exception; a categorization-step failure yields category "Unknown" with the
non-empty reason "Gemini parsing error"; an action-item-step failure yields an
empty action list; and the two delegated calls fail independently — the stored
action_items value is a function of the action-step outcome alone, and the two
category fields of the categorization outcome alone. -/
theorem llm_failures_isolated (generate : String → Except String String)
    (parse : String → Except String PyVal) (prompts email : PyDict)
    (h : ∀ v, catOutcome generate parse prompts email = Except.ok v → ∃ o, v = pydict o) :
    ∃ out, process_email generate parse prompts email = Except.ok out ∧
      dictGet out "action_items" =
        some (actionStepResult (actOutcome generate parse prompts email)) ∧
      (∀ e, catOutcome generate parse prompts email = Except.error e →
        dictGet out "category" = some (pystr "Unknown") ∧
        dictGet out "category_reason" = some (pystr "Gemini parsing error")) ∧
      (∀ o, catOutcome generate parse prompts email = Except.ok (pydict o) →
        dictGet out "category" = some ((dictGet o "category").getD (pystr "Unknown")) ∧
        dictGet out "category_reason" = some ((dictGet o "reason").getD (pystr ""))) ∧
      (∀ e, actOutcome generate parse prompts email = Except.error e →
        dictGet out "action_items" = some (pylist [])) := by
  cases hc : catOutcome generate parse prompts email with
  | error e0 =>
      refine ⟨_, (process_email_formula generate parse prompts email).2 e0 hc, ?_, ?_, ?_, ?_⟩
      · rw [dictGet_dictSet_self]
      · intro e he
        refine ⟨?_, ?_⟩
        · rw [dictGet_dictSet_of_ne _ _ _ _ (by decide), dictGet_dictSet_of_ne _ _ _ _ (by decide),
              dictGet_dictSet_self]
        · rw [dictGet_dictSet_of_ne _ _ _ _ (by decide), dictGet_dictSet_self]
      · intro o ho
        exact absurd ho (by simp)
      · intro e' ha
        rw [dictGet_dictSet_self, ha]
        rfl
  | ok v =>
      obtain ⟨o, rfl⟩ := h v hc
      refine ⟨_, (process_email_formula generate parse prompts email).1 o hc, ?_, ?_, ?_, ?_⟩
      · rw [dictGet_dictSet_self]
      · intro e he
        exact absurd he (by simp)
      · intro o' ho'
        have hoo : o = o' := by
          injection ho' with ho''
          injection ho''
        subst hoo
        refine ⟨?_, ?_⟩
        · rw [dictGet_dictSet_of_ne _ _ _ _ (by decide), dictGet_dictSet_of_ne _ _ _ _ (by decide),
              dictGet_dictSet_self]
        · rw [dictGet_dictSet_of_ne _ _ _ _ (by decide), dictGet_dictSet_self]
      · intro e' ha
        rw [dictGet_dictSet_self, ha]
        rfl

/-- C4 witness: with an always-failing completion each step falls back. -/
theorem llm_failures_isolated_check :
    ∃ out, process_email genFail parseFail [] exEmail = Except.ok out ∧
      dictGet out "action_items" =
        some (actionStepResult (actOutcome genFail parseFail [] exEmail)) ∧
      dictGet out "category" = some (pystr "Unknown") ∧
      dictGet out "category_reason" = some (pystr "Gemini parsing error") := by
  obtain ⟨out, h1, h2, h3, _, _⟩ :=
    llm_failures_isolated genFail parseFail [] exEmail
      (fun v hv => absurd hv (by simp [catOutcome, call_gemini, genFail, dictGet]))
  obtain ⟨hcat, hreason⟩ := h3 "quota exceeded" rfl
  exact ⟨out, h1, h2, hcat, hreason⟩

/-- C5: in both Heuristic (simulator) and LLM (`process_email`) modes, a
successful run modifies only category, category_reason and action_items: the
lookup of every other key is unchanged in the returned record.  Both modelled
functions are pure, so there is no observable effect beyond that record. -/
theorem processing_preserves_other_fields :
    (∀ (email out : PyDict) (k : String),
      simpleSimulateProcessing email = Except.ok out →
      k ≠ "category" → k ≠ "category_reason" → k ≠ "action_items" →
      dictGet out k = dictGet email k) ∧
    (∀ (generate : String → Except String String) (parse : String → Except String PyVal)
      (prompts email out : PyDict) (k : String),
      process_email generate parse prompts email = Except.ok out →
      k ≠ "category" → k ≠ "category_reason" → k ≠ "action_items" →
      dictGet out k = dictGet email k) := by
  constructor
  · intro email out k h hk1 hk2 hk3
    obtain ⟨cv, rv, av, rfl⟩ := simulate_ok_shape email out h
    rw [dictGet_dictSet_of_ne _ _ _ _ hk3, dictGet_dictSet_of_ne _ _ _ _ hk2,
        dictGet_dictSet_of_ne _ _ _ _ hk1]
  · intro generate parse prompts email out k h hk1 hk2 hk3
    obtain ⟨cv, rv, av, rfl⟩ := process_email_ok_shape generate parse prompts email out h
    rw [dictGet_dictSet_of_ne _ _ _ _ hk3, dictGet_dictSet_of_ne _ _ _ _ hk2,
        dictGet_dictSet_of_ne _ _ _ _ hk1]

/-- C5 witness: the caller-added `id` field survives both modes. -/
theorem processing_preserves_other_fields_check :
    dictGet exSimOut "id" = dictGet exEmail "id" ∧
    dictGet exLLMOut "id" = dictGet exEmail "id" :=
  ⟨processing_preserves_other_fields.1 exEmail exSimOut "id" rfl
      (by decide) (by decide) (by decide),
   processing_preserves_other_fields.2 genFail parseFail [] exEmail exLLMOut "id" rfl
      (by decide) (by decide) (by decide)⟩

/-- C6: the normalizer of `process_email` returns a string and never fails: a
structured body with a non-empty string `text` yields that text verbatim; a
structured body whose `text` is absent, null or empty yields "" (independent
of any `html` entry — no fallback); a raw string body yields itself. -/
theorem normalize_body_contract (email : PyDict) (d : PyDict) (s : String) :
    (dictGet email "body" = some (pydict d) → dictGet d "text" = some (pystr s) → s ≠ "" →
      normalizeContent email = pystr s) ∧
    (dictGet email "body" = some (pydict d) →
      (dictGet d "text" = Option.none ∨ dictGet d "text" = some pynone ∨
        dictGet d "text" = some (pystr "")) →
      normalizeContent email = pystr "") ∧
    (dictGet email "body" = some (pystr s) → normalizeContent email = pystr s) := by
  refine ⟨fun h1 h2 h3 => ?_, fun h1 h2 => ?_, fun h1 => ?_⟩
  · simp [normalizeContent, h1, h2, pyOrEmpty, pyTruthy, h3]
  · rcases h2 with h2 | h2 | h2 <;> simp [normalizeContent, h1, h2, pyOrEmpty, pyTruthy]
  · simp [normalizeContent, h1, pyToStr]

/-- C6 witness: the spec's three normalization round-trip examples. -/
theorem normalize_body_contract_check :
    normalizeContent [("body", pydict [("text", pystr "hello"), ("html", pystr "<p>hello</p>")])] =
      pystr "hello" ∧
    normalizeContent [("body", pydict [("text", pynone), ("html", pystr "<p>hi</p>")])] =
      pystr "" ∧
    normalizeContent [("body", pystr "plain")] = pystr "plain" :=
  ⟨(normalize_body_contract [("body", pydict [("text", pystr "hello"), ("html", pystr "<p>hello</p>")])]
      [("text", pystr "hello"), ("html", pystr "<p>hello</p>")] "hello").1 rfl rfl (by decide),
   (normalize_body_contract [("body", pydict [("text", pynone), ("html", pystr "<p>hi</p>")])]
      [("text", pynone), ("html", pystr "<p>hi</p>")] "").2.1 rfl (Or.inr (Or.inl rfl)),
   (normalize_body_contract [("body", pystr "plain")] [] "plain").2.2 rfl⟩

/-- C9: code bug — a batch in simulate mode over ids m1 and m2, where m1's
fetched body has a null `text`, aborts with the simulator's uncaught
AttributeError; m2 is never processed and no result list is returned,
contradicting "no single message's failure is fatal to the batch". -/
theorem batch_aborts_on_simulator_crash :
    fetchAndProcessLoop fetchC9 true true genFail parseFail [] ["m1", "m2"] =
      Except.error "AttributeError: NoneType has no attribute splitlines" := rfl

/-- C10: when the categorization call succeeds and its response parses to a
JSON object, a missing "category" key defaults the category to "Unknown" and a
missing "reason" key defaults the reason to the empty string, without failing
or omitting the fields. -/
theorem missing_json_keys_default (generate : String → Except String String)
    (parse : String → Except String PyVal) (prompts email : PyDict) (o : PyDict)
    (hc : catOutcome generate parse prompts email = Except.ok (pydict o)) :
    ∃ out, process_email generate parse prompts email = Except.ok out ∧
      (dictGet o "category" = Option.none → dictGet out "category" = some (pystr "Unknown")) ∧
      (dictGet o "reason" = Option.none → dictGet out "category_reason" = some (pystr "")) := by
  refine ⟨_, (process_email_formula generate parse prompts email).1 o hc, ?_, ?_⟩
  · intro hnone
    rw [dictGet_dictSet_of_ne _ _ _ _ (by decide), dictGet_dictSet_of_ne _ _ _ _ (by decide),
        dictGet_dictSet_self, hnone]
    rfl
  · intro hnone
    rw [dictGet_dictSet_of_ne _ _ _ _ (by decide), dictGet_dictSet_self, hnone]
    rfl

/-- C10 witness: a response parsing to the empty JSON object gives category
"Unknown" and an empty reason. -/
theorem missing_json_keys_default_check :
    ∃ out, process_email genObj parseObj [] exEmail = Except.ok out ∧
      dictGet out "category" = some (pystr "Unknown") ∧
      dictGet out "category_reason" = some (pystr "") := by
  obtain ⟨out, h1, h2, h3⟩ := missing_json_keys_default genObj parseObj [] exEmail [] rfl
  exact ⟨out, h1, h2 rfl, h3 rfl⟩

end OceanAI
